import Mathlib

/-
Verification of the CryptoClaude dashboard server API layer
(src/Web/dashboard_server.py) against its specification.

The API handlers are shallowly embedded as pure Lean functions.  All
interaction with the host (the pgrep process-table lookup, the ping
connectivity probe, the /proc uptime and loadavg reads, and the clock)
is abstracted into an `Env` record: each field carries either the value
the host call produced or, as `Except.error`, the message of the Python
exception it raised.  JSON response objects are embedded as ordered
association lists of string keys and `JVal` values, mirroring Python
dict literals field by field and in order.
-/

namespace Dashboard

/-- A JSON value as produced by the server's handlers: strings, numbers
(Python ints and floats, embedded as exact rationals since the code only
ever emits literals and never computes with them), booleans, arrays and
objects. -/
inductive JVal where
  | str : String → JVal
  | num : Rat → JVal
  | bool : Bool → JVal
  | arr : List JVal → JVal
  | obj : List (String × JVal) → JVal

/-- A JSON response object: an ordered list of key-value pairs, the
shallow embedding of a Python dict literal. -/
def Obj : Type := List (String × JVal)

/-- First value bound to key `k`, as Python dict lookup after literal
construction (keys in the handlers' dict literals are pairwise distinct,
so first-match is exact). -/
def getField (k : String) : Obj → Option JVal
  | [] => none
  | e :: rest => if k = e.1 then some e.2 else getField k rest

/-- The host environment a single request observes.  `Except.error m`
models the named host call raising a Python exception whose
`str(e)` is `m`; `Except.ok` carries the successful result. -/
structure Env where
  /-- stdout of `subprocess.run(["pgrep", "-f", "cryptoclaude-console"])`,
  or the exception raised by the call. -/
  pgrepResult : Except String String
  /-- returncode of `subprocess.run(["ping", "-c", "1", "8.8.8.8"], timeout=5)`,
  or the exception raised (including `TimeoutExpired`). -/
  pingReturncode : Except String Int
  /-- seconds parsed from the first field of /proc/uptime via
  `int(float(...))`, or the exception raised anywhere in the open/read/parse. -/
  uptimeRead : Except String Nat
  /-- load averages parsed from the first three fields of /proc/loadavg
  via `float`, or the exception raised anywhere in the open/read/parse. -/
  loadRead : Except String (List Rat)
  /-- `datetime.now().isoformat()` -/
  now : String
  /-- `datetime.now().strftime("%H:%M:%S")` -/
  nowHMS : String

/-- `timeout=5` passed to the ping subprocess call, in seconds. -/
def ping_timeout_seconds : Nat := 5

/-- `check_aws_connection`: ping once, `returncode == 0`; any exception
(bare `except`) yields `False`. -/
def check_aws_connection (env : Env) : Bool :=
  match env.pingReturncode with
  | Except.ok rc => decide (rc = 0)
  | Except.error _ => false

/-- `get_system_uptime`: read /proc/uptime; any exception (bare `except`)
yields `0`. -/
def get_system_uptime (env : Env) : Nat :=
  match env.uptimeRead with
  | Except.ok n => n
  | Except.error _ => 0

/-- `get_system_load`: read /proc/loadavg; any exception (bare `except`)
yields `[0.0, 0.0, 0.0]`. -/
def get_system_load (env : Env) : List Rat :=
  match env.loadRead with
  | Except.ok l => l
  | Except.error _ => [0, 0, 0]

/-- `is_running = len(result.stdout.strip()) > 0` in `check_system_health`. -/
def is_running_of (stdout : String) : Bool :=
  decide (0 < stdout.trim.length)

/-- Body of the `try` block of `check_system_health`: raises exactly when
the pgrep subprocess call raises (the two nested probes catch their own
failures and the rest of the block only builds a dict literal). -/
def check_system_health_body (env : Env) : Except String Obj :=
  match env.pgrepResult with
  | Except.error e => Except.error e
  | Except.ok stdout =>
      let is_running := is_running_of stdout
      let aws_connected := check_aws_connection env
      Except.ok
        [("status", JVal.str (if is_running then "healthy" else "stopped")),
         ("cryptoclaude_running", JVal.bool is_running),
         ("aws_connected", JVal.bool aws_connected),
         ("timestamp", JVal.str env.now),
         ("uptime", JVal.num (get_system_uptime env : Rat))]

/-- `check_system_health`: the `try`/`except Exception` wrapper.  Total —
the Lean type records that the Python method never propagates an
exception: every raise inside the `try` body lands in the `except`
branch, which builds the error report. -/
def check_system_health (env : Env) : Obj :=
  match check_system_health_body env with
  | Except.ok r => r
  | Except.error e =>
      [("status", JVal.str ("error")),
       ("error", JVal.str e),
       ("timestamp", JVal.str env.now)]

/-- `get_system_status`: the constant snapshot dict, field for field and
in order; only the two timestamps and the load sample come from the
environment. -/
def get_system_status (env : Env) : Obj :=
  [("portfolio_value", JVal.num (127543.21 : Rat)),
   ("portfolio_change", JVal.num (3421.83 : Rat)),
   ("portfolio_change_percent", JVal.num (2.76 : Rat)),
   ("active_positions", JVal.num (8 : Rat)),
   ("trading_mode", JVal.str ("paper")),
   ("ai_confidence", JVal.num (84.2 : Rat)),
   ("claude_features_enabled", JVal.bool true),
   ("positions", JVal.arr [JVal.str ("BTC"), JVal.str ("ETH"), JVal.str ("ADA"),
      JVal.str ("SOL"), JVal.str ("MATIC"), JVal.str ("LINK"),
      JVal.str ("DOT"), JVal.str ("AVAX")]),
   ("last_prediction_update", JVal.str env.now),
   ("system_load", JVal.arr ((get_system_load env).map JVal.num)),
   ("timestamp", JVal.str env.now)]

/-- The fixed three-element log list built by `get_recent_logs`. -/
def recent_log_entries (env : Env) : List JVal :=
  [JVal.obj [("timestamp", JVal.str env.nowHMS),
             ("level", JVal.str ("INFO")),
             ("message", JVal.str ("CryptoClaude system running normally"))],
   JVal.obj [("timestamp", JVal.str env.nowHMS),
             ("level", JVal.str ("SUCCESS")),
             ("message", JVal.str ("Claude AI features operational"))],
   JVal.obj [("timestamp", JVal.str env.nowHMS),
             ("level", JVal.str ("INFO")),
             ("message", JVal.str ("API connections: 6/6 active"))]]

/-- `get_recent_logs`: wraps the fixed log list with a timestamp. -/
def get_recent_logs (env : Env) : Obj :=
  [("logs", JVal.arr (recent_log_entries env)),
   ("timestamp", JVal.str env.now)]

/-- `start_trading`: the `try` body only builds a dict literal, so the
`except` branch is unreachable; the method returns the success envelope. -/
def start_trading (env : Env) : Obj :=
  [("status", JVal.str ("success")),
   ("message", JVal.str ("Trading system started")),
   ("timestamp", JVal.str env.now)]

/-- `stop_trading`: as `start_trading`, with its own message. -/
def stop_trading (env : Env) : Obj :=
  [("status", JVal.str ("success")),
   ("message", JVal.str ("Trading system stopped")),
   ("timestamp", JVal.str env.now)]

/-- `pause_trading`: as `start_trading`, with its own message. -/
def pause_trading (env : Env) : Obj :=
  [("status", JVal.str ("success")),
   ("message", JVal.str ("Trading system paused")),
   ("timestamp", JVal.str env.now)]

/-- `toggle_claude_features`: returns a fixed acknowledgment with the
constant `claude_enabled: True`; it reads and writes no state. -/
def toggle_claude_features (env : Env) : Obj :=
  [("status", JVal.str ("success")),
   ("message", JVal.str ("Claude features toggled")),
   ("claude_enabled", JVal.bool true),
   ("timestamp", JVal.str env.now)]

/-- `refresh_predictions`: fixed acknowledgment with constant figures. -/
def refresh_predictions (env : Env) : Obj :=
  [("status", JVal.str ("success")),
   ("message", JVal.str ("Predictions refreshed")),
   ("new_confidence", JVal.num (87.1 : Rat)),
   ("symbols_updated", JVal.num (12 : Rat)),
   ("timestamp", JVal.str env.now)]

/-- The `try` block of `handle_api_request`: path dispatch by the
`if`/`elif` chain, ending in the not-found dict.  Typed in `Except` to
mirror that the block runs under `except Exception`; every arm in fact
returns normally, because each handler catches its own failures. -/
def route (path : String) (env : Env) : Except String Obj :=
  if path = "/api/health" then Except.ok (check_system_health env)
  else if path = "/api/status" then Except.ok (get_system_status env)
  else if path = "/api/logs" then Except.ok (get_recent_logs env)
  else if path = "/api/trading/start" then Except.ok (start_trading env)
  else if path = "/api/trading/stop" then Except.ok (stop_trading env)
  else if path = "/api/trading/pause" then Except.ok (pause_trading env)
  else if path = "/api/claude/toggle" then Except.ok (toggle_claude_features env)
  else if path = "/api/predictions/refresh" then Except.ok (refresh_predictions env)
  else Except.ok [("error", JVal.str ("API endpoint not found")),
                  ("status", JVal.str ("error"))]

/-- The `except Exception as e` clause of `handle_api_request`: a raised
exception becomes the error dict `{error: str(e), status: "error"}`. -/
def api_catch : Except String Obj → Obj
  | Except.ok r => r
  | Except.error e => [("error", JVal.str e), ("status", JVal.str ("error"))]

/-- `handle_api_request`: `send_response(200)` is issued before dispatch,
so the transport status is the constant 200; the body is the routed
result guarded by the router's catch. -/
def handle_api_request (path : String) (env : Env) : Nat × Obj :=
  (200, api_catch (route path env))

/-- The mutable server-side state the API handlers touch.  The Python
methods read and write no instance or module attribute (beyond the
inherited HTTP plumbing), so the record has no fields; it is threaded
explicitly to state frame properties. -/
structure ServerState

/-- The five command endpoints. -/
inductive Command where
  | start
  | stop
  | pause
  | toggle
  | refresh

/-- Response of a command endpoint, by handler. -/
def commandResponse : Command → Env → Obj
  | Command.start, env => start_trading env
  | Command.stop, env => stop_trading env
  | Command.pause, env => pause_trading env
  | Command.toggle, env => toggle_claude_features env
  | Command.refresh, env => refresh_predictions env

/-- Running one command as a state transformer: the handlers perform no
state write, so the state component is returned unchanged. -/
def runCommand (c : Command) (s : ServerState) (env : Env) : ServerState × Obj :=
  (s, commandResponse c env)

/-- Running a sequence of commands, each under its own environment. -/
def runCommands : ServerState → List (Command × Env) → ServerState
  | s, [] => s
  | s, ce :: rest => runCommands (runCommand ce.1 s ce.2).1 rest

/-- The status read as a function of the server's mutable state; the
handler reads no mutable attribute, so the state is ignored. -/
def get_system_status_at (_s : ServerState) (env : Env) : Obj :=
  get_system_status env

/-- Level field of a log entry object. -/
def entry_level : JVal → Option JVal
  | JVal.obj o => getField ("level") o
  | _ => none

/-- Message field of a log entry object. -/
def entry_message : JVal → Option JVal
  | JVal.obj o => getField ("message") o
  | _ => none

/-- A concrete benign environment used for witnesses. -/
def env0 : Env :=
  { pgrepResult := Except.ok ("1234\n"),
    pingReturncode := Except.ok 0,
    uptimeRead := Except.ok 3600,
    loadRead := Except.ok [1, 1, 1],
    now := "2026-10-12T12:00:00",
    nowHMS := "12:00:00" }

/-- A concrete failing environment used for witnesses: every host call
raises. -/
def envFail : Env :=
  { pgrepResult := Except.error ("pgrep not found"),
    pingReturncode := Except.error ("timed out"),
    uptimeRead := Except.error ("no such file"),
    loadRead := Except.error ("no such file"),
    now := "2026-10-12T12:00:00",
    nowHMS := "12:00:00" }

/-- Helper: running any command sequence leaves the server state
unchanged, since no command handler writes any state. -/
theorem runCommands_id (ces : List (Command × Env)) : ∀ s : ServerState, runCommands s ces = s := by
  induction ces with
  | nil => intro s; rfl
  | cons ce rest ih => intro s; exact ih s

/-- Claim C3: a request for any unrecognized /api/* path is answered with
transport status 200 and the body with the fixed non-empty error message
and error status. -/
theorem unknown_api_path_error_envelope (env : Env) (path : String)
    (h1 : path ≠ "/api/health") (h2 : path ≠ "/api/status")
    (h3 : path ≠ "/api/logs") (h4 : path ≠ "/api/trading/start")
    (h5 : path ≠ "/api/trading/stop") (h6 : path ≠ "/api/trading/pause")
    (h7 : path ≠ "/api/claude/toggle") (h8 : path ≠ "/api/predictions/refresh") :
    handle_api_request path env =
      (200, [("error", JVal.str ("API endpoint not found")),
             ("status", JVal.str ("error"))])
    ∧ 0 < ("API endpoint not found" : String).length := by
  constructor
  · simp [handle_api_request, route, api_catch, h1, h2, h3, h4, h5, h6, h7, h8]
  · decide

/-- Witness for C3 at the concrete unmatched path /api/nope. -/
theorem unknown_api_path_error_envelope_witness :
    (("/api/nope" : String) ≠ "/api/health")
    ∧ (handle_api_request ("/api/nope") env0 =
        (200, [("error", JVal.str ("API endpoint not found")),
               ("status", JVal.str ("error"))])
      ∧ 0 < ("API endpoint not found" : String).length) :=
  ⟨by decide,
   unknown_api_path_error_envelope env0 ("/api/nope")
     (by decide) (by decide) (by decide) (by decide)
     (by decide) (by decide) (by decide) (by decide)⟩

/-- Claim C4: a handler-level exception with message e is converted by
the router's catch into a body whose status is error and whose error
field carries the message, and handling a request always produces a
transport-status-200 pair through that catch: the router never
propagates a failure. -/
theorem router_catches_handler_exception (e : String) (path : String) (env : Env) :
    getField ("status") (api_catch (Except.error e)) = some (JVal.str ("error"))
    ∧ getField ("error") (api_catch (Except.error e)) = some (JVal.str e)
    ∧ handle_api_request path env = (200, api_catch (route path env)) := by
  refine ⟨rfl, rfl, rfl⟩

/-- Claim C8: on any environment (in particular a freshly started server
with no prior commands), GET /api/status reports trading mode paper and
8 active positions. -/
theorem fresh_status_seed_defaults (env : Env) :
    getField ("trading_mode") ((handle_api_request ("/api/status") env).2) =
      some (JVal.str ("paper"))
    ∧ getField ("active_positions") ((handle_api_request ("/api/status") env).2) =
      some (JVal.num (8 : Rat)) := by
  refine ⟨rfl, rfl⟩

/-- Claim C9: executing any sequence of command endpoints leaves the
server state unchanged, and therefore the value returned by the status
operation is unchanged: no command handler writes any shared state read
by the status operation. -/
theorem commands_do_not_affect_status (s : ServerState)
    (ces : List (Command × Env)) (env : Env) :
    runCommands s ces = s
    ∧ get_system_status_at (runCommands s ces) env = get_system_status_at s env := by
  refine ⟨runCommands_id ces s, ?_⟩
  rw [runCommands_id ces s]

/-- Claim C10: GET /api/logs always returns exactly three log entries
with levels INFO, SUCCESS, INFO and the fixed messages, for every
environment; the sequence is never empty and its length depends on no
request input. -/
theorem logs_fixed_three_entries (env : Env) :
    getField ("logs") (get_recent_logs env) = some (JVal.arr (recent_log_entries env))
    ∧ (recent_log_entries env).length = 3
    ∧ (recent_log_entries env).map entry_level =
        [some (JVal.str ("INFO")), some (JVal.str ("SUCCESS")), some (JVal.str ("INFO"))]
    ∧ (recent_log_entries env).map entry_message =
        [some (JVal.str ("CryptoClaude system running normally")),
         some (JVal.str ("Claude AI features operational")),
         some (JVal.str ("API connections: 6/6 active"))] := by
  refine ⟨rfl, rfl, rfl, rfl⟩

/-- Claim C1 counterexample: the /api/status response carries no status
field at all, so the uniform status-and-timestamp envelope does not hold
for every recognized /api/* path. -/
theorem status_endpoint_lacks_status_field :
    getField ("status") ((handle_api_request ("/api/status") env0).2) = none := by
  rfl

/-- Claim C1 (amended): the health response and every command response
carry both a status and a timestamp field; the /api/status and /api/logs
responses carry a timestamp but no status field; the unknown-path
response carries a status field but no timestamp. -/
theorem envelope_fields_by_endpoint (env : Env) (path : String)
    (h1 : path ≠ "/api/health") (h2 : path ≠ "/api/status")
    (h3 : path ≠ "/api/logs") (h4 : path ≠ "/api/trading/start")
    (h5 : path ≠ "/api/trading/stop") (h6 : path ≠ "/api/trading/pause")
    (h7 : path ≠ "/api/claude/toggle") (h8 : path ≠ "/api/predictions/refresh") :
    ((getField ("status") (check_system_health env)).isSome = true
      ∧ (getField ("timestamp") (check_system_health env)).isSome = true)
    ∧ (∀ c : Command,
        (getField ("status") (commandResponse c env)).isSome = true
        ∧ (getField ("timestamp") (commandResponse c env)).isSome = true)
    ∧ (getField ("status") (get_system_status env) = none
      ∧ (getField ("timestamp") (get_system_status env)).isSome = true)
    ∧ (getField ("status") (get_recent_logs env) = none
      ∧ (getField ("timestamp") (get_recent_logs env)).isSome = true)
    ∧ (getField ("status") ((handle_api_request path env).2) = some (JVal.str ("error"))
      ∧ getField ("timestamp") ((handle_api_request path env).2) = none) := by
  refine ⟨?_, ?_, ⟨rfl, rfl⟩, ⟨rfl, rfl⟩, ?_⟩
  · cases hp : env.pgrepResult with
    | ok out => simp [check_system_health, check_system_health_body, hp, getField]
    | error e => simp [check_system_health, check_system_health_body, hp, getField]
  · intro c
    cases c <;> exact ⟨rfl, rfl⟩
  · constructor <;>
      simp [handle_api_request, route, api_catch, getField,
            h1, h2, h3, h4, h5, h6, h7, h8]

/-- Witness for the amended C1 at a benign environment and the concrete
unmatched path /api/missing. -/
theorem envelope_fields_by_endpoint_witness :
    (("/api/missing" : String) ≠ "/api/health")
    ∧ (((getField ("status") (check_system_health env0)).isSome = true
        ∧ (getField ("timestamp") (check_system_health env0)).isSome = true)
      ∧ (∀ c : Command,
          (getField ("status") (commandResponse c env0)).isSome = true
          ∧ (getField ("timestamp") (commandResponse c env0)).isSome = true)
      ∧ (getField ("status") (get_system_status env0) = none
        ∧ (getField ("timestamp") (get_system_status env0)).isSome = true)
      ∧ (getField ("status") (get_recent_logs env0) = none
        ∧ (getField ("timestamp") (get_recent_logs env0)).isSome = true)
      ∧ (getField ("status") ((handle_api_request ("/api/missing") env0).2) =
          some (JVal.str ("error"))
        ∧ getField ("timestamp") ((handle_api_request ("/api/missing") env0).2) = none)) :=
  ⟨by decide,
   envelope_fields_by_endpoint env0 ("/api/missing")
     (by decide) (by decide) (by decide) (by decide)
     (by decide) (by decide) (by decide) (by decide)⟩

/-- Claim C2 counterexample: starting from the reported flag value true,
one toggle call leaves the status-reported claude_features_enabled at
true rather than flipping it to false, and the call returns the constant
claude_enabled true rather than a flipped value. -/
theorem toggle_does_not_flip_claude_flag :
    getField ("claude_features_enabled")
        (get_system_status_at ServerState.mk env0) = some (JVal.bool true)
    ∧ getField ("claude_features_enabled")
        (get_system_status_at (runCommand Command.toggle ServerState.mk env0).1 env0) =
      some (JVal.bool true)
    ∧ getField ("claude_features_enabled")
        (get_system_status_at (runCommand Command.toggle ServerState.mk env0).1 env0) ≠
      some (JVal.bool false)
    ∧ getField ("claude_enabled")
        ((runCommand Command.toggle ServerState.mk env0).2) = some (JVal.bool true) := by
  refine ⟨rfl, rfl, ?_, rfl⟩
  intro h
  simp [get_system_status_at, get_system_status, getField] at h

/-- Claim C2 (amended): toggle_claude_features mutates no server state,
so any number of toggle calls (in particular two) leaves the
status-reported claude_features_enabled at its original value, which is
the constant true; each call returns the constant claude_enabled true
rather than a flipped flag. -/
theorem toggle_is_stateless_constant_true (s : ServerState) (env : Env) (n : Nat) :
    runCommands s (List.replicate n (Command.toggle, env)) = s
    ∧ get_system_status_at (runCommands s (List.replicate n (Command.toggle, env))) env =
        get_system_status_at s env
    ∧ getField ("claude_features_enabled") (get_system_status_at s env) =
        some (JVal.bool true)
    ∧ getField ("claude_enabled") (toggle_claude_features env) = some (JVal.bool true) := by
  refine ⟨runCommands_id _ s, ?_, rfl, rfl⟩
  rw [runCommands_id _ s]

/-- Claim C5: check_system_health is total (the Lean return type is the
report itself, not an exceptional computation), and when the collection
raises internally, with message e, the report is exactly the error
envelope carrying status error, the failure description, and the current
timestamp. -/
theorem check_system_health_error_report (env : Env) (e : String)
    (h : env.pgrepResult = Except.error e) :
    check_system_health env =
      [("status", JVal.str ("error")),
       ("error", JVal.str e),
       ("timestamp", JVal.str env.now)] := by
  simp [check_system_health, check_system_health_body, h]

/-- Witness for C5 at the failing environment. -/
theorem check_system_health_error_report_witness :
    envFail.pgrepResult = Except.error ("pgrep not found")
    ∧ check_system_health envFail =
      [("status", JVal.str ("error")),
       ("error", JVal.str ("pgrep not found")),
       ("timestamp", JVal.str envFail.now)] :=
  ⟨rfl, check_system_health_error_report envFail ("pgrep not found") rfl⟩

/-- Claim C6: when the pgrep lookup returns normally, the health status
is healthy precisely when the trading process is present in the process
table (nonempty stripped pgrep output), and stopped precisely when it is
absent. -/
theorem health_status_healthy_iff_running (env : Env) (out : String)
    (h : env.pgrepResult = Except.ok out) :
    ((getField ("status") (check_system_health env) = some (JVal.str ("healthy")))
        ↔ is_running_of out = true)
    ∧ ((getField ("status") (check_system_health env) = some (JVal.str ("stopped")))
        ↔ is_running_of out = false) := by
  cases hb : is_running_of out <;>
    simp [check_system_health, check_system_health_body, h, hb, getField]

/-- Witness for C6 at an environment whose pgrep output is a PID line. -/
theorem health_status_healthy_iff_running_witness :
    env0.pgrepResult = Except.ok ("1234\n")
    ∧ (((getField ("status") (check_system_health env0) = some (JVal.str ("healthy")))
          ↔ is_running_of ("1234\n") = true)
      ∧ ((getField ("status") (check_system_health env0) = some (JVal.str ("stopped")))
          ↔ is_running_of ("1234\n") = false)) :=
  ⟨rfl, health_status_healthy_iff_running env0 ("1234\n") rfl⟩

/-- Claim C7: each probe sub-query degrades to its default instead of
failing: a raising ping probe yields connectivity false (and the probe
passes a hard 5-second timeout, within the required bound), a raising
uptime read yields 0, and a raising loadavg read yields the zero triple;
each sub-query is total, so none propagates an error to its caller. -/
theorem probe_subqueries_degrade_to_defaults (env : Env) :
    (∀ e, env.pingReturncode = Except.error e → check_aws_connection env = false)
    ∧ (∀ e, env.uptimeRead = Except.error e → get_system_uptime env = 0)
    ∧ (∀ e, env.loadRead = Except.error e → get_system_load env = [0, 0, 0])
    ∧ ping_timeout_seconds ≤ 5 := by
  refine ⟨?_, ?_, ?_, by decide⟩
  · intro e he; simp [check_aws_connection, he]
  · intro e he; simp [get_system_uptime, he]
  · intro e he; simp [get_system_load, he]

/-- Witness for C7 at the failing environment. -/
theorem probe_subqueries_degrade_to_defaults_witness :
    check_aws_connection envFail = false
    ∧ get_system_uptime envFail = 0
    ∧ get_system_load envFail = [0, 0, 0]
    ∧ ping_timeout_seconds ≤ 5 :=
  ⟨(probe_subqueries_degrade_to_defaults envFail).1 ("timed out") rfl,
   (probe_subqueries_degrade_to_defaults envFail).2.1 ("no such file") rfl,
   (probe_subqueries_degrade_to_defaults envFail).2.2.1 ("no such file") rfl,
   (probe_subqueries_degrade_to_defaults envFail).2.2.2⟩

end Dashboard
